import Mathlib

/-!
Verification of the FriendSync local data store (`src/lib/db.ts`), its
development seed guard (`src/lib/seed.ts`) and the backend sync engine
(`syncFromBackend`).

The fallback engine keeps the whole dataset in one document (`DBShape`)
with a per-table auto-increment counter block.  Every operation of db.ts
loads that document, mutates it in memory and writes it back; here each
operation is a pure function on `DBShape`.  Time-valued string fields
(`startTime`, `createdAt`, ...) are modelled by their numeric timestamps
(`Int`), matching the `new Date(x).getTime()` comparisons the code sorts
with.  `new Date().toISOString()` calls are threaded in as an explicit
`now` argument.
-/

namespace FriendSync

/-- A row of the `users` table: `{ userId, username, email }`. -/
structure UserRow where
  userId : Nat
  username : String
  email : String
  deriving DecidableEq

/-- A row of the `friends` table: `{ friendRowId, userId, friendId, status }`. -/
structure FriendRow where
  friendRowId : Nat
  userId : Nat
  friendId : Nat
  status : String
  deriving DecidableEq

/-- A row of the `rsvps` table. -/
structure RsvpRow where
  rsvpId : Nat
  createdAt : Int
  eventId : Nat
  eventOwnerId : Nat
  inviteRecipientId : Nat
  status : String
  updatedAt : Int
  deriving DecidableEq

/-- A row of the `events` table; free-time blocks are rows with `isEvent = 0`. -/
structure EventRow where
  eventId : Nat
  userId : Nat
  eventTitle : Option String
  description : Option String
  startTime : Int
  endTime : Option Int
  date : Option Int
  isEvent : Nat
  recurring : Nat
  deriving DecidableEq

/-- A row of the `notifications` table. -/
structure NotificationRow where
  notificationId : Nat
  userId : Nat
  notifMsg : String
  notifType : Option String
  createdAt : Int
  deriving DecidableEq

/-- A row of the `user_prefs` table. -/
structure PrefRow where
  preferenceId : Nat
  userId : Nat
  theme : Nat
  notificationEnabled : Nat
  colorScheme : Nat
  updatedAt : Int
  deriving DecidableEq

/-- The six tables of the schema, used to index the `__meta__.nextId` block. -/
inductive Table where
  | users
  | friends
  | rsvps
  | user_prefs
  | events
  | notifications
  deriving DecidableEq

/-- `__meta__.nextId`: the per-table auto-increment counter block of the
fallback document.  `none` models a missing counter entry (older or
corrupted documents), which `loadFallback` backfills on load. -/
structure NextIdMeta where
  users : Option Nat
  friends : Option Nat
  rsvps : Option Nat
  user_prefs : Option Nat
  events : Option Nat
  notifications : Option Nat
  deriving DecidableEq

/-- The fallback document (`DBShape` in db.ts). -/
structure DBShape where
  meta : NextIdMeta
  users : List UserRow
  friends : List FriendRow
  rsvps : List RsvpRow
  user_prefs : List PrefRow
  events : List EventRow
  notifications : List NotificationRow
  deriving DecidableEq

/-- Read the nextId counter entry of one table. -/
def metaGet (m : NextIdMeta) : Table → Option Nat
  | .users => m.users
  | .friends => m.friends
  | .rsvps => m.rsvps
  | .user_prefs => m.user_prefs
  | .events => m.events
  | .notifications => m.notifications

/-- Write the nextId counter entry of one table. -/
def metaSet (m : NextIdMeta) (t : Table) (v : Nat) : NextIdMeta :=
  match t with
  | .users => { m with users := some v }
  | .friends => { m with friends := some v }
  | .rsvps => { m with rsvps := some v }
  | .user_prefs => { m with user_prefs := some v }
  | .events => { m with events := some v }
  | .notifications => { m with notifications := some v }

/-- `nextId` of db.ts: `const n = db.__meta__.nextId[table] ?? 1;
db.__meta__.nextId[table] = n + 1; return n;`. -/
def nextId (db : DBShape) (t : Table) : Nat × DBShape :=
  let n := (metaGet db.meta t).getD 1
  (n, { db with meta := metaSet db.meta t (n + 1) })

/-- The fresh empty document `loadFallback` creates when the storage key is
absent: empty tables, empty `nextId` block. -/
def initialDb : DBShape :=
  { meta := { users := none, friends := none, rsvps := none, user_prefs := none,
              events := none, notifications := none },
    users := [], friends := [], rsvps := [], user_prefs := [], events := [],
    notifications := [] }

/-! ### Normalization on load

`loadFallback` backfills each missing per-table counter with
"max existing id-like field + 1", scanning every field of the rows whose
key matches `/id$/i`. -/

/-- Fold a maximum of the id-like fields of a table's rows (`userId` for
`users`). -/
def maxIdUsers (l : List UserRow) : Nat :=
  l.foldr (fun r m => max r.userId m) 0

/-- Id-like fields of `friends` rows: `friendRowId`, `userId`, `friendId`. -/
def maxIdFriends (l : List FriendRow) : Nat :=
  l.foldr (fun r m => max r.friendRowId (max r.userId (max r.friendId m))) 0

/-- Id-like fields of `rsvps` rows: `rsvpId`, `eventId`, `eventOwnerId`,
`inviteRecipientId`. -/
def maxIdRsvps (l : List RsvpRow) : Nat :=
  l.foldr (fun r m => max r.rsvpId (max r.eventId (max r.eventOwnerId
    (max r.inviteRecipientId m)))) 0

/-- Id-like fields of `user_prefs` rows: `preferenceId`, `userId`. -/
def maxIdPrefs (l : List PrefRow) : Nat :=
  l.foldr (fun r m => max r.preferenceId (max r.userId m)) 0

/-- Id-like fields of `events` rows: `eventId`, `userId`. -/
def maxIdEvents (l : List EventRow) : Nat :=
  l.foldr (fun r m => max r.eventId (max r.userId m)) 0

/-- Id-like fields of `notifications` rows: `notificationId`, `userId`. -/
def maxIdNotifications (l : List NotificationRow) : Nat :=
  l.foldr (fun r m => max r.notificationId (max r.userId m)) 0

/-- Backfill one missing counter entry with `max + 1`; a present entry is
kept as is. -/
def backfill (c : Option Nat) (maxId : Nat) : Option Nat :=
  match c with
  | some v => some v
  | none => some (maxId + 1)

/-- The normalization `loadFallback` applies to the persisted document on
every load: arrays and the meta block are kept, and every missing
per-table counter is backfilled from the table's id-like fields. -/
def normalizeDB (db : DBShape) : DBShape :=
  { db with meta :=
    { users := backfill db.meta.users (maxIdUsers db.users),
      friends := backfill db.meta.friends (maxIdFriends db.friends),
      rsvps := backfill db.meta.rsvps (maxIdRsvps db.rsvps),
      user_prefs := backfill db.meta.user_prefs (maxIdPrefs db.user_prefs),
      events := backfill db.meta.events (maxIdEvents db.events),
      notifications := backfill db.meta.notifications (maxIdNotifications db.notifications) } }

/-! ### Generic helpers -/

/-- Replace the first element satisfying `p` (the row JS `find`/`findIndex`
locates and mutates); the rest of the list is untouched. -/
def updateFirst (p : α → Bool) (f : α → α) : List α → List α
  | [] => []
  | a :: l => if p a then f a :: l else a :: updateFirst p f l

/-- The ascending comparator the fallback sorts with: compare two rows by an
integer key. -/
def keyLe (key : α → Int) (a b : α) : Prop := key a ≤ key b

/-- The descending comparator (`ORDER BY ... DESC`). -/
def keyGe (key : α → Int) (a b : α) : Prop := key b ≤ key a

instance (key : α → Int) : DecidableRel (keyLe key) := fun _ _ => Int.decLe _ _

instance (key : α → Int) : DecidableRel (keyGe key) := fun _ _ => Int.decLe _ _

instance (key : α → Int) : IsTotal α (keyLe key) := ⟨fun _ _ => Int.le_total _ _⟩

instance (key : α → Int) : IsTrans α (keyLe key) := ⟨fun _ _ _ => Int.le_trans⟩

instance (key : α → Int) : IsTotal α (keyGe key) := ⟨fun _ _ => Int.le_total _ _⟩

instance (key : α → Int) : IsTrans α (keyGe key) := ⟨fun _ _ _ h h' => Int.le_trans h' h⟩

/-- `arr.sort((a,b) => key(a) - key(b))`: ascending by an integer key. -/
def sortAscBy (key : α → Int) (l : List α) : List α :=
  List.insertionSort (keyLe key) l

/-- `arr.sort((a,b) => key(b) - key(a))`: descending by an integer key. -/
def sortDescBy (key : α → Int) (l : List α) : List α :=
  List.insertionSort (keyGe key) l

/-! ### Users -/

/-- Input of `createUser` (only `username` and `email` are stored). -/
structure UserInput where
  username : String
  email : String
  deriving DecidableEq

/-- Fallback branch of `createUser`: draw the next id and push the row. -/
def createUser (db : DBShape) (user : UserInput) : Nat × DBShape :=
  let (id, db) := nextId db .users
  (id, { db with users := db.users ++
    [{ userId := id, username := user.username, email := user.email }] })

/-- Fallback branch of `getUserById`. -/
def getUserById (db : DBShape) (id : Nat) : Option UserRow :=
  db.users.find? (fun u => u.userId == id)

/-- Fallback branch of `getUserByUsername`. -/
def getUserByUsername (db : DBShape) (username : String) : Option UserRow :=
  db.users.find? (fun u => u.username == username)

/-- Partial field set of `updateUser`; absent fields are left unchanged by
the object spread. -/
structure UserUpdate where
  username : Option String
  email : Option String
  deriving DecidableEq

/-- The object spread `{ ...u, ...fields }` of `updateUser`: fields present
in `fields` replace the row's, absent ones are kept. -/
def applyUserUpdate (fields : UserUpdate) (u : UserRow) : UserRow :=
  { u with username := fields.username.getD u.username, email := fields.email.getD u.email }

/-- Fallback branch of `updateUser`: no matching index is a silent no-op,
otherwise the matched row is replaced by its merge with `fields`. -/
def updateUser (db : DBShape) (id : Nat) (fields : UserUpdate) : DBShape :=
  match db.users.find? (fun u => u.userId == id) with
  | none => db
  | some _ =>
    { db with users := updateFirst (fun u => u.userId == id) (applyUserUpdate fields) db.users }

/-- Fallback branch of `deleteUser`: bulk-filter cascade over every table. -/
def deleteUser (db : DBShape) (id : Nat) : DBShape :=
  { db with
    users := db.users.filter (fun u => u.userId != id),
    friends := db.friends.filter (fun r => r.userId != id && r.friendId != id),
    events := db.events.filter (fun e => e.userId != id),
    rsvps := db.rsvps.filter (fun r => r.eventOwnerId != id && r.inviteRecipientId != id),
    notifications := db.notifications.filter (fun n => n.userId != id),
    user_prefs := db.user_prefs.filter (fun p => p.userId != id) }

/-! ### Friends -/

/-- Fallback branch of `sendFriendRequest`: push a `pending` row. -/
def sendFriendRequest (db : DBShape) (senderId receiverId : Nat) : Nat × DBShape :=
  let (id, db) := nextId db .friends
  (id, { db with friends := db.friends ++
    [{ friendRowId := id, userId := senderId, friendId := receiverId, status := "pending" }] })

/-- The status write `r.status = accept ? 'accepted' : 'rejected'`. -/
def setFriendStatus (accept : Bool) (rr : FriendRow) : FriendRow :=
  { rr with status := if accept then "accepted" else "rejected" }

/-- Fallback branch of `respondFriendRequest`: mutate the status of the
first row with the given `friendRowId`; no match is a silent no-op. -/
def respondFriendRequest (db : DBShape) (requestId : Nat) (accept : Bool) : DBShape :=
  match db.friends.find? (fun rr => rr.friendRowId == requestId) with
  | none => db
  | some _ =>
    { db with friends :=
        updateFirst (fun rr => rr.friendRowId == requestId) (setFriendStatus accept) db.friends }

/-- Fallback branch of `getFriendRequestsForUser`: pending rows whose
`friendId` is the user. -/
def getFriendRequestsForUser (db : DBShape) (userId : Nat) : List FriendRow :=
  db.friends.filter (fun r => r.friendId == userId && r.status == "pending")

/-- Fallback branch of `getFriendsForUser`: accepted rows touching the user,
mapped to the opposite endpoint.  The result is a list of bare ids. -/
def getFriendsForUser (db : DBShape) (userId : Nat) : List Nat :=
  let accepted := db.friends.filter
    (fun r => r.status == "accepted" && (r.userId == userId || r.friendId == userId))
  accepted.map (fun r => if r.userId == userId then r.friendId else r.userId)

/-- Fallback branch of `removeFriend`: drop accepted rows between the two
users in either direction. -/
def removeFriend (db : DBShape) (userA userB : Nat) : DBShape :=
  { db with friends := db.friends.filter (fun r =>
      !(r.status == "accepted" &&
        ((r.userId == userA && r.friendId == userB) ||
         (r.userId == userB && r.friendId == userA)))) }

/-! ### RSVPs -/

/-- Input of `createRsvp`; optional fields default inside the operation. -/
structure RsvpInput where
  eventId : Nat
  eventOwnerId : Nat
  inviteRecipientId : Nat
  status : Option String
  createdAt : Option Int
  updatedAt : Option Int
  deriving DecidableEq

/-- Fallback branch of `createRsvp`; `now` is `new Date().toISOString()`. -/
def createRsvp (db : DBShape) (rsvp : RsvpInput) (now : Int) : Nat × DBShape :=
  let (id, db) := nextId db .rsvps
  (id, { db with rsvps := db.rsvps ++
    [{ rsvpId := id, createdAt := rsvp.createdAt.getD now, eventId := rsvp.eventId,
       eventOwnerId := rsvp.eventOwnerId, inviteRecipientId := rsvp.inviteRecipientId,
       status := rsvp.status.getD "pending", updatedAt := rsvp.updatedAt.getD now }] })

/-- Fallback branch of `getRsvpsForEvent`: ascending by `createdAt`. -/
def getRsvpsForEvent (db : DBShape) (eventId : Nat) : List RsvpRow :=
  sortAscBy (fun r => r.createdAt) (db.rsvps.filter (fun r => r.eventId == eventId))

/-- Fallback branch of `getRsvpsForUser`: descending by `createdAt`. -/
def getRsvpsForUser (db : DBShape) (userId : Nat) : List RsvpRow :=
  sortDescBy (fun r => r.createdAt) (db.rsvps.filter (fun r => r.inviteRecipientId == userId))

/-- Partial field set of `updateRsvp`. -/
structure RsvpUpdate where
  status : Option String
  updatedAt : Option Int
  deriving DecidableEq

/-- The spread `{ ...r, ...fields, updatedAt: fields.updatedAt ?? now }`. -/
def applyRsvpUpdate (fields : RsvpUpdate) (now : Int) (r : RsvpRow) : RsvpRow :=
  { r with status := fields.status.getD r.status, updatedAt := fields.updatedAt.getD now }

/-- Fallback branch of `updateRsvp`: no matching index is a silent no-op;
`updatedAt` falls back to `now`. -/
def updateRsvp (db : DBShape) (rsvpId : Nat) (fields : RsvpUpdate) (now : Int) : DBShape :=
  match db.rsvps.find? (fun r => r.rsvpId == rsvpId) with
  | none => db
  | some _ =>
    { db with rsvps :=
        updateFirst (fun r => r.rsvpId == rsvpId) (applyRsvpUpdate fields now) db.rsvps }

/-- Fallback branch of `deleteRsvp`. -/
def deleteRsvp (db : DBShape) (rsvpId : Nat) : DBShape :=
  { db with rsvps := db.rsvps.filter (fun r => r.rsvpId != rsvpId) }

/-! ### Events and free time -/

/-- Input of `createEvent`; the stored title is `eventTitle ?? title ?? null`. -/
structure EventInput where
  userId : Nat
  title : Option String
  eventTitle : Option String
  description : Option String
  startTime : Int
  endTime : Option Int
  date : Option Int
  isEvent : Option Nat
  recurring : Option Nat
  deriving DecidableEq

/-- Fallback branch of `createEvent`. -/
def createEvent (db : DBShape) (event : EventInput) : Nat × DBShape :=
  let title := event.eventTitle <|> event.title
  let (id, db) := nextId db .events
  (id, { db with events := db.events ++
    [{ eventId := id, userId := event.userId, eventTitle := title,
       description := event.description, startTime := event.startTime,
       endTime := event.endTime, date := event.date,
       isEvent := event.isEvent.getD 1, recurring := event.recurring.getD 0 }] })

/-- Fallback branch of `getEventsForUser`: every row with that `userId`
(no `isEvent` filter), ascending by `startTime`. -/
def getEventsForUser (db : DBShape) (userId : Nat) : List EventRow :=
  sortAscBy (fun e => e.startTime) (db.events.filter (fun e => e.userId == userId))

/-- Fallback branch of `deleteEvent`. -/
def deleteEvent (db : DBShape) (eventId : Nat) : DBShape :=
  { db with events := db.events.filter (fun e => e.eventId != eventId) }

/-- Input of `addFreeTime`. -/
structure FreeTimeInput where
  userId : Nat
  startTime : Int
  endTime : Option Int
  deriving DecidableEq

/-- The row `addFreeTime` pushes: an events-table row with `isEvent = 0`. -/
def freeTimeRow (id : Nat) (slot : FreeTimeInput) : EventRow :=
  { eventId := id, userId := slot.userId, startTime := slot.startTime,
    endTime := slot.endTime, isEvent := 0, eventTitle := none,
    description := none, date := none, recurring := 0 }

/-- Fallback branch of `addFreeTime`. -/
def addFreeTime (db : DBShape) (slot : FreeTimeInput) : Nat × DBShape :=
  let (id, db) := nextId db .events
  (id, { db with events := db.events ++ [freeTimeRow id slot] })

/-- Fallback branch of `getFreeTimeForUser`: rows with `isEvent = 0`,
ascending by `startTime`. -/
def getFreeTimeForUser (db : DBShape) (userId : Nat) : List EventRow :=
  sortAscBy (fun e => e.startTime)
    (db.events.filter (fun f => f.userId == userId && f.isEvent == 0))

/-! ### Notifications -/

/-- Input of `addNotification`; `timestamp` defaults to `now`. -/
structure NotifInput where
  userId : Nat
  notifMsg : String
  notifType : Option String
  timestamp : Option Int
  deriving DecidableEq

/-- Fallback branch of `addNotification`. -/
def addNotification (db : DBShape) (note : NotifInput) (now : Int) : Nat × DBShape :=
  let (id, db) := nextId db .notifications
  (id, { db with notifications := db.notifications ++
    [{ notificationId := id, userId := note.userId, notifMsg := note.notifMsg,
       notifType := note.notifType, createdAt := note.timestamp.getD now }] })

/-- Fallback branch of `getNotificationsForUser`: descending by `createdAt`. -/
def getNotificationsForUser (db : DBShape) (userId : Nat) : List NotificationRow :=
  sortDescBy (fun n => n.createdAt)
    (db.notifications.filter (fun n => n.userId == userId))

/-- Fallback branch of `clearNotificationsForUser`. -/
def clearNotificationsForUser (db : DBShape) (userId : Nat) : DBShape :=
  { db with notifications := db.notifications.filter (fun n => n.userId != userId) }

/-! ### Preferences -/

/-- Partial preferences set of `setUserPreferences`. -/
structure PrefsInput where
  theme : Option Nat
  notificationEnabled : Option Nat
  colorScheme : Option Nat
  deriving DecidableEq

/-- The spread `{ ...p, ...prefs, updatedAt: now }` of `setUserPreferences`. -/
def applyPrefsUpdate (prefs : PrefsInput) (now : Int) (p : PrefRow) : PrefRow :=
  { p with theme := prefs.theme.getD p.theme,
           notificationEnabled := prefs.notificationEnabled.getD p.notificationEnabled,
           colorScheme := prefs.colorScheme.getD p.colorScheme,
           updatedAt := now }

/-- Fallback branch of `setUserPreferences`: upsert on `userId`. -/
def setUserPreferences (db : DBShape) (userId : Nat) (prefs : PrefsInput) (now : Int) : DBShape :=
  match db.user_prefs.find? (fun p => p.userId == userId) with
  | some _ =>
    { db with user_prefs :=
        updateFirst (fun p => p.userId == userId) (applyPrefsUpdate prefs now) db.user_prefs }
  | none =>
    let (id, db) := nextId db .user_prefs
    { db with user_prefs := db.user_prefs ++
      [{ preferenceId := id, userId := userId, theme := prefs.theme.getD 0,
         notificationEnabled := prefs.notificationEnabled.getD 1,
         colorScheme := prefs.colorScheme.getD 0, updatedAt := now }] }

/-- Fallback branch of `getUserPreferences`. -/
def getUserPreferences (db : DBShape) (userId : Nat) : Option PrefRow :=
  db.user_prefs.find? (fun p => p.userId == userId)

/-! ### Native engine (expo-sqlite branch)

The native branch issues SQL against the same six tables.  Only the
statements a claim depends on are embedded: `deleteUser` runs
`DELETE FROM users WHERE userId = ?` and nothing else (no cascade), and
`getFriendsForUser` runs the accepted-edge SELECT and maps each row to
its opposite endpoint exactly as the fallback does. -/

/-- The native engine's table state (ids are engine-assigned). -/
structure NativeDB where
  users : List UserRow
  friends : List FriendRow
  rsvps : List RsvpRow
  user_prefs : List PrefRow
  events : List EventRow
  notifications : List NotificationRow
  deriving DecidableEq

/-- Native branch of `deleteUser`: the single statement
`DELETE FROM users WHERE userId = ?;` — the other five tables are left
untouched. -/
def deleteUserNative (db : NativeDB) (id : Nat) : NativeDB :=
  { db with users := db.users.filter (fun u => u.userId != id) }

/-- Native branch of `getFriendsForUser`: rows with
`status = 'accepted' AND (userId = ? OR friendId = ?)`, each mapped to the
endpoint that is not the queried user. -/
def getFriendsForUserNative (db : NativeDB) (userId : Nat) : List Nat :=
  (db.friends.filter
    (fun r => r.status == "accepted" && (r.userId == userId || r.friendId == userId))).map
    (fun r => if r.userId == userId then r.friendId else r.userId)

/-! ### Seed guard (seed.ts)

`seedDummyData` opens with
`if (!__DEV__ && !((globalThis as any).__FORCE_SEED__ === true)) throw ...`
before any database write. -/

/-- Whether the guard at the top of `seedDummyData` throws, as a function of
`__DEV__` and of the `__FORCE_SEED__ === true` escape hatch.  The guard is
the first statement of the function, so a rejected call performs no write. -/
def seedDummyDataRejects (dev forceSeed : Bool) : Bool :=
  !dev && !forceSeed

/-! ### Sync engine (`syncFromBackend`)

One reconciliation pass over remote data already fetched (each resource
independently defaulting to `[]`/`null` on fetch failure).  The six
sections below mirror the sequential sections of the source. -/

/-- Remote `/users/{id}` payload. -/
structure RemoteUser where
  userId : Nat
  username : String
  email : String
  deriving DecidableEq

/-- Remote `/events/user/{id}` element. -/
structure RemoteEvent where
  userId : Nat
  eventTitle : Option String
  title : Option String
  description : Option String
  startTime : Int
  endTime : Option Int
  date : Option Int
  isEvent : Option Nat
  recurring : Option Nat
  deriving DecidableEq

/-- Remote `/friends/user/{id}` element. -/
structure RemoteFriend where
  friendId : Nat
  status : String
  deriving DecidableEq

/-- Remote `/rsvps/user/{id}` element. -/
structure RemoteRsvp where
  eventId : Nat
  eventOwnerId : Nat
  inviteRecipientId : Nat
  status : Option String
  deriving DecidableEq

/-- Remote `/notifications/user/{id}` element. -/
structure RemoteNotif where
  userId : Nat
  notifMsg : String
  notifType : Option String
  createdAt : Option Int
  deriving DecidableEq

/-- Remote `/preferences/{id}` payload. -/
structure RemotePrefs where
  theme : Option Nat
  notificationEnabled : Option Nat
  colorScheme : Option Nat
  deriving DecidableEq

/-- The six fetched resources of one pass; a failed fetch leaves `none`/`[]`. -/
structure RemoteData where
  user : Option RemoteUser
  events : List RemoteEvent
  friends : List RemoteFriend
  rsvps : List RemoteRsvp
  notifications : List RemoteNotif
  preferences : Option RemotePrefs
  deriving DecidableEq

/-- JavaScript `a || b` on optional strings: an absent or empty left operand
falls through to the right (the empty string is falsy). -/
def jsOrStr : Option String → Option String → Option String
  | some s, b => if s = "" then b else some s
  | none, b => b

/-- "Store users": upsert the remote profile by id. -/
def syncUserStep (db : DBShape) (remoteUser : Option RemoteUser) : DBShape :=
  match remoteUser with
  | none => db
  | some u =>
    match getUserById db u.userId with
    | some _ => updateUser db u.userId { username := some u.username, email := some u.email }
    | none => (createUser db { username := u.username, email := u.email }).2

/-- The `createEvent` argument built from one remote event. -/
def remoteEventInput (ev : RemoteEvent) : EventInput :=
  { userId := ev.userId, title := none, eventTitle := jsOrStr ev.eventTitle ev.title,
    description := ev.description, startTime := ev.startTime, endTime := ev.endTime,
    date := ev.date, isEvent := some (ev.isEvent.getD 1),
    recurring := some (ev.recurring.getD 0) }

/-- "Store events - clear and re-add all": delete every event the store
lists for the user, then insert every remote event fresh. -/
def syncEventsStep (db : DBShape) (userId : Nat) (remoteEvents : List RemoteEvent) : DBShape :=
  let existingEvents := getEventsForUser db userId
  let db := existingEvents.foldl (fun d e => deleteEvent d e.eventId) db
  remoteEvents.foldl (fun d ev => (createEvent d (remoteEventInput ev)).2) db

/-- The property read `f.friendId` the sync code performs on each element of
`getFriendsForUser`'s result.  Those elements are plain numbers, so in
JavaScript the read yields `undefined` (here `none`), which strictly equals
no numeric remote `friendId`. -/
def friendIdOfNumber (_f : Nat) : Option Nat := none

/-- The accepted-status handling after the local create: for a remote
`accepted` friendship, look for the matching pending request aimed at the
user and accept it (the lookup scans `getFriendRequestsForUser(userId)`,
whose rows have `friendId = userId`). -/
def syncFriendAccept (db : DBShape) (userId : Nat) (friend : RemoteFriend) : DBShape :=
  if friend.status == "accepted" then
    match (getFriendRequestsForUser db userId).find?
        (fun r => r.friendId == friend.friendId) with
    | some request => respondFriendRequest db request.friendRowId true
    | none => db
  else db

/-- "Store friends" for one remote friendship: create it locally unless the
(broken) existence probe finds it, and for a remote `accepted` status try to
accept the corresponding pending request. -/
def syncFriendOne (db : DBShape) (userId : Nat) (friend : RemoteFriend) : DBShape :=
  let existingFriends := getFriendsForUser db userId
  match existingFriends.find? (fun f => friendIdOfNumber f == some friend.friendId) with
  | some _ => db
  | none => syncFriendAccept (sendFriendRequest db userId friend.friendId).2 userId friend

/-- "Store friends": the loop over the remote friends list. -/
def syncFriendsStep (db : DBShape) (userId : Nat) (remoteFriends : List RemoteFriend) : DBShape :=
  remoteFriends.foldl (fun d f => syncFriendOne d userId f) db

/-- "Store RSVPs" for one remote RSVP: insert when no local RSVP for the
user matches on `(eventId, inviteRecipientId)`, else update its status. -/
def syncRsvpOne (db : DBShape) (userId : Nat) (rsvp : RemoteRsvp) (now : Int) : DBShape :=
  let existingRsvps := getRsvpsForUser db userId
  match existingRsvps.find?
      (fun r => r.eventId == rsvp.eventId && r.inviteRecipientId == rsvp.inviteRecipientId) with
  | none =>
    (createRsvp db { eventId := rsvp.eventId, eventOwnerId := rsvp.eventOwnerId,
                     inviteRecipientId := rsvp.inviteRecipientId, status := rsvp.status,
                     createdAt := none, updatedAt := none } now).2
  | some ex => updateRsvp db ex.rsvpId { status := rsvp.status, updatedAt := none } now

/-- "Store RSVPs": the loop over the remote RSVP list. -/
def syncRsvpsStep (db : DBShape) (userId : Nat) (remoteRsvps : List RemoteRsvp) (now : Int) :
    DBShape :=
  remoteRsvps.foldl (fun d r => syncRsvpOne d userId r now) db

/-- "Store notifications - clear old ones and add new". -/
def syncNotifsStep (db : DBShape) (userId : Nat) (remoteNotifs : List RemoteNotif) (now : Int) :
    DBShape :=
  let db := clearNotificationsForUser db userId
  remoteNotifs.foldl (fun d n =>
    (addNotification d { userId := n.userId, notifMsg := n.notifMsg,
                         notifType := n.notifType, timestamp := n.createdAt } now).2) db

/-- "Store preferences". -/
def syncPrefsStep (db : DBShape) (userId : Nat) (remotePrefs : Option RemotePrefs) (now : Int) :
    DBShape :=
  match remotePrefs with
  | none => db
  | some p =>
    setUserPreferences db userId
      { theme := p.theme, notificationEnabled := p.notificationEnabled,
        colorScheme := p.colorScheme } now

/-- One full reconciliation pass of `syncFromBackend` over already-fetched
remote data, applying the six sequential sections of the source. -/
def syncFromBackend (db : DBShape) (userId : Nat) (remote : RemoteData) (now : Int) : DBShape :=
  let db := syncUserStep db remote.user
  let db := syncEventsStep db userId remote.events
  let db := syncFriendsStep db userId remote.friends
  let db := syncRsvpsStep db userId remote.rsvps now
  let db := syncNotifsStep db userId remote.notifications now
  syncPrefsStep db userId remote.preferences now

/-! ### Operation traces for the create-id invariant

Every db.ts operation begins with `await loadFallback()`, which normalizes
the persisted document; a process restart replays the same load.  A trace
step therefore normalizes first and then applies one operation; `restart`
is the bare reload.  Create steps record the `(table, id)` they return. -/

/-- One traced operation against the fallback store. -/
inductive Op where
  | opCreateUser (user : UserInput)
  | opCreateEvent (event : EventInput)
  | opAddFreeTime (slot : FreeTimeInput)
  | opCreateRsvp (rsvp : RsvpInput) (now : Int)
  | opSendFriendRequest (senderId receiverId : Nat)
  | opAddNotification (note : NotifInput) (now : Int)
  | opDeleteUser (id : Nat)
  | opDeleteEvent (id : Nat)
  | opDeleteRsvp (id : Nat)
  | opRemoveFriend (userA userB : Nat)
  | opClearNotifications (userId : Nat)
  | opRestart
  deriving DecidableEq

/-- Apply one operation: normalize (the load), run it, record any returned
create id with its table. -/
def applyOp (db : DBShape) : Op → DBShape × List (Table × Nat)
  | .opCreateUser user =>
    let (id, db') := createUser (normalizeDB db) user
    (db', [(Table.users, id)])
  | .opCreateEvent event =>
    let (id, db') := createEvent (normalizeDB db) event
    (db', [(Table.events, id)])
  | .opAddFreeTime slot =>
    let (id, db') := addFreeTime (normalizeDB db) slot
    (db', [(Table.events, id)])
  | .opCreateRsvp rsvp now =>
    let (id, db') := createRsvp (normalizeDB db) rsvp now
    (db', [(Table.rsvps, id)])
  | .opSendFriendRequest senderId receiverId =>
    let (id, db') := sendFriendRequest (normalizeDB db) senderId receiverId
    (db', [(Table.friends, id)])
  | .opAddNotification note now =>
    let (id, db') := addNotification (normalizeDB db) note now
    (db', [(Table.notifications, id)])
  | .opDeleteUser id => (deleteUser (normalizeDB db) id, [])
  | .opDeleteEvent id => (deleteEvent (normalizeDB db) id, [])
  | .opDeleteRsvp id => (deleteRsvp (normalizeDB db) id, [])
  | .opRemoveFriend userA userB => (removeFriend (normalizeDB db) userA userB, [])
  | .opClearNotifications userId => (clearNotificationsForUser (normalizeDB db) userId, [])
  | .opRestart => (normalizeDB db, [])

/-- Run a trace, collecting every returned create id with its table. -/
def runTrace (db : DBShape) : List Op → DBShape × List (Table × Nat)
  | [] => (db, [])
  | op :: ops =>
    let (db', ret) := applyOp db op
    let (db'', rets) := runTrace db' ops
    (db'', ret ++ rets)

/-- The ids a trace returned for one table, in order. -/
def idsFor (rets : List (Table × Nat)) (t : Table) : List Nat :=
  rets.filterMap (fun p => if p.1 = t then some p.2 else none)

/-- The effective next id of a table: what `nextId` would return
(`counter ?? 1`). -/
def effCounter (db : DBShape) (t : Table) : Nat :=
  (metaGet db.meta t).getD 1

/-! ### Sample stores used by concrete theorems -/

/-- A native store with two users and one accepted friendship. -/
def nativeSampleDb : NativeDB :=
  { users := [⟨1, "alice", "alice@x"⟩, ⟨2, "bob", "bob@x"⟩],
    friends := [⟨1, 1, 2, "accepted"⟩],
    rsvps := [], user_prefs := [], events := [], notifications := [] }

/-- A fallback store mirroring `nativeSampleDb`. -/
def fallbackSampleDb : DBShape :=
  { meta := ⟨some 3, some 2, some 1, some 1, some 1, some 1⟩,
    users := [⟨1, "alice", "alice@x"⟩, ⟨2, "bob", "bob@x"⟩],
    friends := [⟨1, 1, 2, "accepted"⟩],
    rsvps := [], user_prefs := [], events := [], notifications := [] }

/-- Remote data of a single accepted friendship with user 2. -/
def remoteFriendSample : RemoteData :=
  { user := none, events := [],
    friends := [{ friendId := 2, status := "accepted" }],
    rsvps := [], notifications := [], preferences := none }

/-- Remote data of one event owned by user 1 and no other resources. -/
def remoteEventSample : RemoteData :=
  { user := none,
    events := [{ userId := 1, eventTitle := some "Meeting", title := none,
                 description := none, startTime := 100, endTime := some 200,
                 date := some 100, isEvent := some 1, recurring := some 0 }],
    friends := [], rsvps := [], notifications := [], preferences := none }

/-! ### Frame lemmas: which tables each sync section leaves untouched -/

/-- Folding a step that fixes a projection fixes it over the whole list. -/
theorem foldl_proj_eq {α β γ : Type _} (f : α → β → α) (proj : α → γ)
    (h : ∀ d b, proj (f d b) = proj d) :
    ∀ (l : List β) (d : α), proj (l.foldl f d) = proj d := by
  intro l
  induction l with
  | nil => intro d; rfl
  | cons b l ih => intro d; rw [List.foldl_cons, ih, h]

theorem syncUserStep_friends (db : DBShape) (u : Option RemoteUser) :
    (syncUserStep db u).friends = db.friends := by
  unfold syncUserStep
  split
  · rfl
  · split
    · unfold updateUser; split <;> rfl
    · rfl

theorem syncUserStep_rsvps (db : DBShape) (u : Option RemoteUser) :
    (syncUserStep db u).rsvps = db.rsvps := by
  unfold syncUserStep
  split
  · rfl
  · split
    · unfold updateUser; split <;> rfl
    · rfl

theorem syncUserStep_events (db : DBShape) (u : Option RemoteUser) :
    (syncUserStep db u).events = db.events := by
  unfold syncUserStep
  split
  · rfl
  · split
    · unfold updateUser; split <;> rfl
    · rfl

theorem syncEventsStep_friends (db : DBShape) (u : Nat) (l : List RemoteEvent) :
    (syncEventsStep db u l).friends = db.friends := by
  simp only [syncEventsStep]
  exact (foldl_proj_eq (fun d ev => (createEvent d (remoteEventInput ev)).2)
      (fun d : DBShape => d.friends) (fun _ _ => rfl) l _).trans
    (foldl_proj_eq (fun d e => deleteEvent d e.eventId)
      (fun d : DBShape => d.friends) (fun _ _ => rfl) (getEventsForUser db u) db)

theorem syncEventsStep_rsvps (db : DBShape) (u : Nat) (l : List RemoteEvent) :
    (syncEventsStep db u l).rsvps = db.rsvps := by
  simp only [syncEventsStep]
  exact (foldl_proj_eq (fun d ev => (createEvent d (remoteEventInput ev)).2)
      (fun d : DBShape => d.rsvps) (fun _ _ => rfl) l _).trans
    (foldl_proj_eq (fun d e => deleteEvent d e.eventId)
      (fun d : DBShape => d.rsvps) (fun _ _ => rfl) (getEventsForUser db u) db)

/-- The broken existence probe of the friends section: its elements are bare
numbers, so the `friendId` read is `undefined` and the find never succeeds. -/
theorem findExistingFriend_none (l : List Nat) (x : Nat) :
    l.find? (fun f => friendIdOfNumber f == some x) = none :=
  List.find?_eq_none.mpr (fun a _ => by simp [friendIdOfNumber])

/-- Because the probe never succeeds, each remote friendship is handled by
create-then-maybe-accept. -/
theorem syncFriendOne_eq (db : DBShape) (u : Nat) (f : RemoteFriend) :
    syncFriendOne db u f
      = syncFriendAccept (sendFriendRequest db u f.friendId).2 u f := by
  simp only [syncFriendOne, findExistingFriend_none]

theorem syncFriendAccept_rsvps (db : DBShape) (u : Nat) (f : RemoteFriend) :
    (syncFriendAccept db u f).rsvps = db.rsvps := by
  unfold syncFriendAccept
  split
  · split
    · unfold respondFriendRequest; split <;> rfl
    · rfl
  · rfl

theorem syncFriendAccept_events (db : DBShape) (u : Nat) (f : RemoteFriend) :
    (syncFriendAccept db u f).events = db.events := by
  unfold syncFriendAccept
  split
  · split
    · unfold respondFriendRequest; split <;> rfl
    · rfl
  · rfl

theorem syncFriendOne_rsvps (db : DBShape) (u : Nat) (f : RemoteFriend) :
    (syncFriendOne db u f).rsvps = db.rsvps := by
  rw [syncFriendOne_eq, syncFriendAccept_rsvps]; rfl

theorem syncFriendOne_events (db : DBShape) (u : Nat) (f : RemoteFriend) :
    (syncFriendOne db u f).events = db.events := by
  rw [syncFriendOne_eq, syncFriendAccept_events]; rfl

theorem syncFriendsStep_rsvps (db : DBShape) (u : Nat) (l : List RemoteFriend) :
    (syncFriendsStep db u l).rsvps = db.rsvps := by
  simp only [syncFriendsStep]
  exact foldl_proj_eq (fun d f => syncFriendOne d u f)
    (fun d : DBShape => d.rsvps) (fun d f => syncFriendOne_rsvps d u f) l db

theorem syncFriendsStep_events (db : DBShape) (u : Nat) (l : List RemoteFriend) :
    (syncFriendsStep db u l).events = db.events := by
  simp only [syncFriendsStep]
  exact foldl_proj_eq (fun d f => syncFriendOne d u f)
    (fun d : DBShape => d.events) (fun d f => syncFriendOne_events d u f) l db

theorem syncRsvpOne_friends (db : DBShape) (u : Nat) (r : RemoteRsvp) (now : Int) :
    (syncRsvpOne db u r now).friends = db.friends := by
  simp only [syncRsvpOne]
  split
  · rfl
  · unfold updateRsvp; split <;> rfl

theorem syncRsvpOne_events (db : DBShape) (u : Nat) (r : RemoteRsvp) (now : Int) :
    (syncRsvpOne db u r now).events = db.events := by
  simp only [syncRsvpOne]
  split
  · rfl
  · unfold updateRsvp; split <;> rfl

theorem syncRsvpsStep_friends (db : DBShape) (u : Nat) (l : List RemoteRsvp) (now : Int) :
    (syncRsvpsStep db u l now).friends = db.friends := by
  simp only [syncRsvpsStep]
  exact foldl_proj_eq (fun d r => syncRsvpOne d u r now)
    (fun d : DBShape => d.friends) (fun d r => syncRsvpOne_friends d u r now) l db

theorem syncRsvpsStep_events (db : DBShape) (u : Nat) (l : List RemoteRsvp) (now : Int) :
    (syncRsvpsStep db u l now).events = db.events := by
  simp only [syncRsvpsStep]
  exact foldl_proj_eq (fun d r => syncRsvpOne d u r now)
    (fun d : DBShape => d.events) (fun d r => syncRsvpOne_events d u r now) l db

theorem syncNotifsStep_friends (db : DBShape) (u : Nat) (l : List RemoteNotif) (now : Int) :
    (syncNotifsStep db u l now).friends = db.friends := by
  simp only [syncNotifsStep]
  exact (foldl_proj_eq
    (fun (d : DBShape) (n : RemoteNotif) => (addNotification d
      { userId := n.userId, notifMsg := n.notifMsg, notifType := n.notifType,
        timestamp := n.createdAt } now).2)
    (fun d : DBShape => d.friends) (fun _ _ => rfl) l _).trans rfl

theorem syncNotifsStep_rsvps (db : DBShape) (u : Nat) (l : List RemoteNotif) (now : Int) :
    (syncNotifsStep db u l now).rsvps = db.rsvps := by
  simp only [syncNotifsStep]
  exact (foldl_proj_eq
    (fun (d : DBShape) (n : RemoteNotif) => (addNotification d
      { userId := n.userId, notifMsg := n.notifMsg, notifType := n.notifType,
        timestamp := n.createdAt } now).2)
    (fun d : DBShape => d.rsvps) (fun _ _ => rfl) l _).trans rfl

theorem syncNotifsStep_events (db : DBShape) (u : Nat) (l : List RemoteNotif) (now : Int) :
    (syncNotifsStep db u l now).events = db.events := by
  simp only [syncNotifsStep]
  exact (foldl_proj_eq
    (fun (d : DBShape) (n : RemoteNotif) => (addNotification d
      { userId := n.userId, notifMsg := n.notifMsg, notifType := n.notifType,
        timestamp := n.createdAt } now).2)
    (fun d : DBShape => d.events) (fun _ _ => rfl) l _).trans rfl

theorem syncPrefsStep_friends (db : DBShape) (u : Nat) (p : Option RemotePrefs) (now : Int) :
    (syncPrefsStep db u p now).friends = db.friends := by
  unfold syncPrefsStep
  split
  · rfl
  · unfold setUserPreferences; split <;> rfl

theorem syncPrefsStep_rsvps (db : DBShape) (u : Nat) (p : Option RemotePrefs) (now : Int) :
    (syncPrefsStep db u p now).rsvps = db.rsvps := by
  unfold syncPrefsStep
  split
  · rfl
  · unfold setUserPreferences; split <;> rfl

theorem syncPrefsStep_events (db : DBShape) (u : Nat) (p : Option RemotePrefs) (now : Int) :
    (syncPrefsStep db u p now).events = db.events := by
  unfold syncPrefsStep
  split
  · rfl
  · unfold setUserPreferences; split <;> rfl

theorem syncPrefsStep_notifications (db : DBShape) (u : Nat) (p : Option RemotePrefs) (now : Int) :
    (syncPrefsStep db u p now).notifications = db.notifications := by
  unfold syncPrefsStep
  split
  · rfl
  · unfold setUserPreferences; split <;> rfl

/-! ### Additive merge never deletes (friends / RSVPs) -/

/-- Every friendship row of `l` survives into `l'` with its identity fields
(`friendRowId`, endpoints) intact; only `status` may change. -/
def FriendsKept (l l' : List FriendRow) : Prop :=
  ∀ r ∈ l, ∃ r' ∈ l',
    r'.friendRowId = r.friendRowId ∧ r'.userId = r.userId ∧ r'.friendId = r.friendId

/-- Every RSVP row of `l` survives into `l'` with its identity fields
intact; only `status` and `updatedAt` may change. -/
def RsvpsKept (l l' : List RsvpRow) : Prop :=
  ∀ s ∈ l, ∃ s' ∈ l',
    s'.rsvpId = s.rsvpId ∧ s'.eventId = s.eventId ∧ s'.eventOwnerId = s.eventOwnerId ∧
    s'.inviteRecipientId = s.inviteRecipientId ∧ s'.createdAt = s.createdAt

theorem friendsKept_refl (l : List FriendRow) : FriendsKept l l :=
  fun r hr => ⟨r, hr, rfl, rfl, rfl⟩

theorem friendsKept_trans {l1 l2 l3 : List FriendRow}
    (h12 : FriendsKept l1 l2) (h23 : FriendsKept l2 l3) : FriendsKept l1 l3 := by
  intro r hr
  obtain ⟨r2, h2, e1, e2, e3⟩ := h12 r hr
  obtain ⟨r3, h3, f1, f2, f3⟩ := h23 r2 h2
  exact ⟨r3, h3, f1.trans e1, f2.trans e2, f3.trans e3⟩

theorem rsvpsKept_refl (l : List RsvpRow) : RsvpsKept l l :=
  fun s hs => ⟨s, hs, rfl, rfl, rfl, rfl, rfl⟩

theorem rsvpsKept_trans {l1 l2 l3 : List RsvpRow}
    (h12 : RsvpsKept l1 l2) (h23 : RsvpsKept l2 l3) : RsvpsKept l1 l3 := by
  intro s hs
  obtain ⟨s2, h2, e1, e2, e3, e4, e5⟩ := h12 s hs
  obtain ⟨s3, h3, f1, f2, f3, f4, f5⟩ := h23 s2 h2
  exact ⟨s3, h3, f1.trans e1, f2.trans e2, f3.trans e3, f4.trans e4, f5.trans e5⟩

theorem updateFirst_friendsKept (p : FriendRow → Bool) (accept : Bool) :
    ∀ l : List FriendRow, FriendsKept l (updateFirst p (setFriendStatus accept) l) := by
  intro l
  induction l with
  | nil => intro r hr; cases hr
  | cons a l ih =>
    intro r hr
    by_cases hp : p a
    · simp only [updateFirst, hp, if_true]
      rcases List.mem_cons.mp hr with rfl | hr2
      · exact ⟨setFriendStatus accept r, List.mem_cons_self _ _, rfl, rfl, rfl⟩
      · exact ⟨r, List.mem_cons_of_mem _ hr2, rfl, rfl, rfl⟩
    · simp only [updateFirst, hp, if_false]
      rcases List.mem_cons.mp hr with rfl | hr2
      · exact ⟨r, List.mem_cons_self _ _, rfl, rfl, rfl⟩
      · obtain ⟨r', hm, h1, h2, h3⟩ := ih r hr2
        exact ⟨r', List.mem_cons_of_mem _ hm, h1, h2, h3⟩

theorem updateFirst_rsvpsKept (p : RsvpRow → Bool) (fields : RsvpUpdate) (now : Int) :
    ∀ l : List RsvpRow, RsvpsKept l (updateFirst p (applyRsvpUpdate fields now) l) := by
  intro l
  induction l with
  | nil => intro s hs; cases hs
  | cons a l ih =>
    intro s hs
    by_cases hp : p a
    · simp only [updateFirst, hp, if_true]
      rcases List.mem_cons.mp hs with rfl | hs2
      · exact ⟨applyRsvpUpdate fields now s, List.mem_cons_self _ _, rfl, rfl, rfl, rfl, rfl⟩
      · exact ⟨s, List.mem_cons_of_mem _ hs2, rfl, rfl, rfl, rfl, rfl⟩
    · simp only [updateFirst, hp, if_false]
      rcases List.mem_cons.mp hs with rfl | hs2
      · exact ⟨s, List.mem_cons_self _ _, rfl, rfl, rfl, rfl, rfl⟩
      · obtain ⟨s', hm, h1, h2, h3, h4, h5⟩ := ih s hs2
        exact ⟨s', List.mem_cons_of_mem _ hm, h1, h2, h3, h4, h5⟩

theorem sendFriendRequest_kept (db : DBShape) (a b : Nat) :
    FriendsKept db.friends (sendFriendRequest db a b).2.friends := by
  intro r hr
  exact ⟨r, List.mem_append_left _ hr, rfl, rfl, rfl⟩

theorem respondFriendRequest_kept (db : DBShape) (reqId : Nat) (acc : Bool) :
    FriendsKept db.friends (respondFriendRequest db reqId acc).friends := by
  unfold respondFriendRequest
  split
  · exact friendsKept_refl _
  · exact updateFirst_friendsKept _ _ _

theorem syncFriendAccept_kept (db : DBShape) (u : Nat) (f : RemoteFriend) :
    FriendsKept db.friends (syncFriendAccept db u f).friends := by
  unfold syncFriendAccept
  split
  · split
    · exact respondFriendRequest_kept _ _ _
    · exact friendsKept_refl _
  · exact friendsKept_refl _

theorem syncFriendOne_kept (db : DBShape) (u : Nat) (f : RemoteFriend) :
    FriendsKept db.friends (syncFriendOne db u f).friends := by
  rw [syncFriendOne_eq]
  exact friendsKept_trans (sendFriendRequest_kept db u f.friendId) (syncFriendAccept_kept _ _ _)

theorem syncFriendsStep_kept (u : Nat) :
    ∀ (l : List RemoteFriend) (db : DBShape),
      FriendsKept db.friends (syncFriendsStep db u l).friends := by
  intro l
  induction l with
  | nil => intro db; exact friendsKept_refl _
  | cons f l ih =>
    intro db
    exact friendsKept_trans (syncFriendOne_kept db u f) (ih (syncFriendOne db u f))

theorem createRsvp_kept (db : DBShape) (r : RsvpInput) (now : Int) :
    RsvpsKept db.rsvps (createRsvp db r now).2.rsvps := by
  intro s hs
  exact ⟨s, List.mem_append_left _ hs, rfl, rfl, rfl, rfl, rfl⟩

theorem updateRsvp_kept (db : DBShape) (rid : Nat) (fields : RsvpUpdate) (now : Int) :
    RsvpsKept db.rsvps (updateRsvp db rid fields now).rsvps := by
  unfold updateRsvp
  split
  · exact rsvpsKept_refl _
  · exact updateFirst_rsvpsKept _ _ _ _

theorem syncRsvpOne_kept (db : DBShape) (u : Nat) (r : RemoteRsvp) (now : Int) :
    RsvpsKept db.rsvps (syncRsvpOne db u r now).rsvps := by
  simp only [syncRsvpOne]
  split
  · exact createRsvp_kept _ _ _
  · exact updateRsvp_kept _ _ _ _

theorem syncRsvpsStep_kept (u : Nat) (now : Int) :
    ∀ (l : List RemoteRsvp) (db : DBShape),
      RsvpsKept db.rsvps (syncRsvpsStep db u l now).rsvps := by
  intro l
  induction l with
  | nil => intro db; exact rsvpsKept_refl _
  | cons r l ih =>
    intro db
    exact rsvpsKept_trans (syncRsvpOne_kept db u r now) (ih (syncRsvpOne db u r now))

/-! ### Counter monotonicity along traces -/

theorem metaGet_metaSet_self (m : NextIdMeta) (t : Table) (v : Nat) :
    metaGet (metaSet m t v) t = some v := by
  cases t <;> rfl

theorem metaGet_metaSet_ne (m : NextIdMeta) (t t' : Table) (v : Nat) (h : t' ≠ t) :
    metaGet (metaSet m t v) t' = metaGet m t' := by
  cases t <;> cases t' <;> first | rfl | exact absurd rfl h

theorem backfill_getD_ge (c : Option Nat) (m : Nat) : c.getD 1 ≤ (backfill c m).getD 1 := by
  cases c with
  | none => simp [backfill]
  | some v => simp [backfill]

/-- Normalization never lowers a table's effective next id: a present
counter is kept, a missing one is backfilled to at least 1. -/
theorem effCounter_normalize_ge (db : DBShape) (t : Table) :
    effCounter db t ≤ effCounter (normalizeDB db) t := by
  cases t <;> exact backfill_getD_ge _ _

theorem effCounter_nextId_self (db : DBShape) (t : Table) :
    effCounter (nextId db t).2 t = effCounter db t + 1 := by
  simp [nextId, effCounter, metaGet_metaSet_self]

theorem effCounter_nextId_ne (db : DBShape) (t t' : Table) (h : t' ≠ t) :
    effCounter (nextId db t).2 t' = effCounter db t' := by
  simp [nextId, effCounter, metaGet_metaSet_ne _ _ _ _ h]

theorem counter_step_le (db : DBShape) (t0 t : Table) :
    effCounter db t ≤ effCounter (nextId (normalizeDB db) t0).2 t := by
  by_cases ht : t = t0
  · subst ht
    rw [effCounter_nextId_self]
    exact le_trans (effCounter_normalize_ge db t) (Nat.le_succ _)
  · rw [effCounter_nextId_ne _ _ _ ht]
    exact effCounter_normalize_ge db t

/-- No traced operation ever lowers any table's effective next id. -/
theorem applyOp_counter_mono (db : DBShape) (op : Op) (t : Table) :
    effCounter db t ≤ effCounter (applyOp db op).1 t := by
  cases op with
  | opCreateUser user => exact counter_step_le db Table.users t
  | opCreateEvent event => exact counter_step_le db Table.events t
  | opAddFreeTime slot => exact counter_step_le db Table.events t
  | opCreateRsvp rsvp now => exact counter_step_le db Table.rsvps t
  | opSendFriendRequest senderId receiverId => exact counter_step_le db Table.friends t
  | opAddNotification note now => exact counter_step_le db Table.notifications t
  | opDeleteUser id => exact effCounter_normalize_ge db t
  | opDeleteEvent id => exact effCounter_normalize_ge db t
  | opDeleteRsvp id => exact effCounter_normalize_ge db t
  | opRemoveFriend userA userB => exact effCounter_normalize_ge db t
  | opClearNotifications userId => exact effCounter_normalize_ge db t
  | opRestart => exact effCounter_normalize_ge db t

/-- A traced create returns the pre-step effective next id of its table and
bumps the post-step counter just past it. -/
theorem applyOp_ret_spec (db : DBShape) (op : Op) :
    ∀ p ∈ (applyOp db op).2,
      effCounter db p.1 ≤ p.2 ∧ effCounter (applyOp db op).1 p.1 = p.2 + 1 := by
  cases op with
  | opCreateUser user =>
    intro p hp
    have e : (applyOp db (Op.opCreateUser user)).2
        = [(Table.users, effCounter (normalizeDB db) Table.users)] := rfl
    rw [e] at hp
    have hp2 := List.mem_singleton.mp hp
    subst hp2
    exact ⟨effCounter_normalize_ge db Table.users,
      effCounter_nextId_self (normalizeDB db) Table.users⟩
  | opCreateEvent event =>
    intro p hp
    have e : (applyOp db (Op.opCreateEvent event)).2
        = [(Table.events, effCounter (normalizeDB db) Table.events)] := rfl
    rw [e] at hp
    have hp2 := List.mem_singleton.mp hp
    subst hp2
    exact ⟨effCounter_normalize_ge db Table.events,
      effCounter_nextId_self (normalizeDB db) Table.events⟩
  | opAddFreeTime slot =>
    intro p hp
    have e : (applyOp db (Op.opAddFreeTime slot)).2
        = [(Table.events, effCounter (normalizeDB db) Table.events)] := rfl
    rw [e] at hp
    have hp2 := List.mem_singleton.mp hp
    subst hp2
    exact ⟨effCounter_normalize_ge db Table.events,
      effCounter_nextId_self (normalizeDB db) Table.events⟩
  | opCreateRsvp rsvp now =>
    intro p hp
    have e : (applyOp db (Op.opCreateRsvp rsvp now)).2
        = [(Table.rsvps, effCounter (normalizeDB db) Table.rsvps)] := rfl
    rw [e] at hp
    have hp2 := List.mem_singleton.mp hp
    subst hp2
    exact ⟨effCounter_normalize_ge db Table.rsvps,
      effCounter_nextId_self (normalizeDB db) Table.rsvps⟩
  | opSendFriendRequest senderId receiverId =>
    intro p hp
    have e : (applyOp db (Op.opSendFriendRequest senderId receiverId)).2
        = [(Table.friends, effCounter (normalizeDB db) Table.friends)] := rfl
    rw [e] at hp
    have hp2 := List.mem_singleton.mp hp
    subst hp2
    exact ⟨effCounter_normalize_ge db Table.friends,
      effCounter_nextId_self (normalizeDB db) Table.friends⟩
  | opAddNotification note now =>
    intro p hp
    have e : (applyOp db (Op.opAddNotification note now)).2
        = [(Table.notifications, effCounter (normalizeDB db) Table.notifications)] := rfl
    rw [e] at hp
    have hp2 := List.mem_singleton.mp hp
    subst hp2
    exact ⟨effCounter_normalize_ge db Table.notifications,
      effCounter_nextId_self (normalizeDB db) Table.notifications⟩
  | opDeleteUser id => intro p hp; exact absurd hp (by simp [applyOp])
  | opDeleteEvent id => intro p hp; exact absurd hp (by simp [applyOp])
  | opDeleteRsvp id => intro p hp; exact absurd hp (by simp [applyOp])
  | opRemoveFriend userA userB => intro p hp; exact absurd hp (by simp [applyOp])
  | opClearNotifications userId => intro p hp; exact absurd hp (by simp [applyOp])
  | opRestart => intro p hp; exact absurd hp (by simp [applyOp])

/-- A traced operation returns at most one id. -/
theorem applyOp_ret_short (db : DBShape) (op : Op) :
    (applyOp db op).2 = [] ∨ ∃ t0 id, (applyOp db op).2 = [(t0, id)] := by
  cases op with
  | opCreateUser user => exact Or.inr ⟨Table.users, _, rfl⟩
  | opCreateEvent event => exact Or.inr ⟨Table.events, _, rfl⟩
  | opAddFreeTime slot => exact Or.inr ⟨Table.events, _, rfl⟩
  | opCreateRsvp rsvp now => exact Or.inr ⟨Table.rsvps, _, rfl⟩
  | opSendFriendRequest senderId receiverId => exact Or.inr ⟨Table.friends, _, rfl⟩
  | opAddNotification note now => exact Or.inr ⟨Table.notifications, _, rfl⟩
  | opDeleteUser id => exact Or.inl rfl
  | opDeleteEvent id => exact Or.inl rfl
  | opDeleteRsvp id => exact Or.inl rfl
  | opRemoveFriend userA userB => exact Or.inl rfl
  | opClearNotifications userId => exact Or.inl rfl
  | opRestart => exact Or.inl rfl

theorem idsFor_append (a b : List (Table × Nat)) (t : Table) :
    idsFor (a ++ b) t = idsFor a t ++ idsFor b t := by
  simp [idsFor, List.filterMap_append]

theorem mem_idsFor (rets : List (Table × Nat)) (t : Table) (i : Nat)
    (h : i ∈ idsFor rets t) : ∃ p ∈ rets, p.1 = t ∧ p.2 = i := by
  simp only [idsFor, List.mem_filterMap] at h
  obtain ⟨p, hp, he⟩ := h
  by_cases h1 : p.1 = t
  · rw [if_pos h1] at he
    exact ⟨p, hp, h1, Option.some.inj he⟩
  · rw [if_neg h1] at he
    cases he

theorem idsFor_short (rets : List (Table × Nat)) (t : Table)
    (h : rets = [] ∨ ∃ t0 id, rets = [(t0, id)]) :
    (idsFor rets t).Pairwise (fun a b => a < b) := by
  rcases h with rfl | ⟨t0, id, rfl⟩
  · simp [idsFor]
  · by_cases ht : t0 = t
    · simp [idsFor, ht]
    · simp [idsFor, ht]

/-- Over any trace, the ids a table hands out are bounded below by its
current effective counter and pairwise strictly increasing. -/
theorem runTrace_ids_aux :
    ∀ (ops : List Op) (db : DBShape) (t : Table),
      (∀ i ∈ idsFor (runTrace db ops).2 t, effCounter db t ≤ i) ∧
      (idsFor (runTrace db ops).2 t).Pairwise (fun a b => a < b) := by
  intro ops
  induction ops with
  | nil =>
    intro db t
    constructor
    · intro i hi; simp [runTrace, idsFor] at hi
    · simp [runTrace, idsFor]
  | cons op ops ih =>
    intro db t
    have hrt : (runTrace db (op :: ops)).2
        = (applyOp db op).2 ++ (runTrace (applyOp db op).1 ops).2 := rfl
    obtain ⟨ihb, ihp⟩ := ih (applyOp db op).1 t
    rw [hrt, idsFor_append]
    constructor
    · intro i hi
      rcases List.mem_append.mp hi with hiA | hiB
      · obtain ⟨p, hp, h1, h2⟩ := mem_idsFor _ _ _ hiA
        have hle := (applyOp_ret_spec db op p hp).1
        rw [h1, h2] at hle
        exact hle
      · exact le_trans (applyOp_counter_mono db op t) (ihb i hiB)
    · rw [List.pairwise_append]
      refine ⟨idsFor_short _ _ (applyOp_ret_short db op), ihp, ?_⟩
      intro a haA b hbB
      obtain ⟨p, hp, h1, h2⟩ := mem_idsFor _ _ _ haA
      have heq := (applyOp_ret_spec db op p hp).2
      rw [h1, h2] at heq
      have hb := ihb b hbB
      omega

/-! ### Content of the destructive-replace resources (events, notifications)

The events and notifications sections re-insert the remote set with fresh
auto-increment ids on every pass; everything except the id is a function of
the remote data alone. -/

theorem orElse_none (a : Option α) : (a <|> none) = a := by
  cases a <;> rfl

/-- Every field of an events row except its auto-assigned `eventId`. -/
def eventContent (e : EventRow) :
    Nat × Option String × Option String × Int × Option Int × Option Int × Nat × Nat :=
  (e.userId, e.eventTitle, e.description, e.startTime, e.endTime, e.date, e.isEvent, e.recurring)

/-- The content the events section stores for one remote event. -/
def remoteEventContent (ev : RemoteEvent) :
    Nat × Option String × Option String × Int × Option Int × Option Int × Nat × Nat :=
  (ev.userId, jsOrStr ev.eventTitle ev.title, ev.description, ev.startTime, ev.endTime,
   ev.date, ev.isEvent.getD 1, ev.recurring.getD 0)

/-- Every field of a notifications row except its auto-assigned id. -/
def notifContent (n : NotificationRow) : Nat × String × Option String × Int :=
  (n.userId, n.notifMsg, n.notifType, n.createdAt)

/-- The content the notifications section stores for one remote
notification that carries its `createdAt`. -/
def remoteNotifContent (n : RemoteNotif) : Nat × String × Option String × Int :=
  (n.userId, n.notifMsg, n.notifType, n.createdAt.getD 0)

/-- A row surviving the delete loop is an original row whose id the loop's
list never carried. -/
theorem foldl_deleteEvent_mem (l : List EventRow) :
    ∀ (db : DBShape) (e : EventRow),
      e ∈ (l.foldl (fun d x => deleteEvent d x.eventId) db).events →
      e ∈ db.events ∧ ∀ x ∈ l, e.eventId ≠ x.eventId := by
  induction l with
  | nil => intro db e h; exact ⟨h, by simp⟩
  | cons x l ih =>
    intro db e h
    rw [List.foldl_cons] at h
    obtain ⟨h1, h2⟩ := ih (deleteEvent db x.eventId) e h
    have h3 : e ∈ db.events ∧ (e.eventId != x.eventId) = true := by
      simpa [deleteEvent, List.mem_filter] using h1
    refine ⟨h3.1, ?_⟩
    intro y hy
    rcases List.mem_cons.mp hy with rfl | hy2
    · simpa using h3.2
    · exact h2 y hy2

/-- The delete loop of the events section leaves no event owned by the
synced user: every owned row's id is in the deleted list. -/
theorem syncEventsStep_deletes_user_events (db : DBShape) (u : Nat) :
    ((getEventsForUser db u).foldl (fun d e => deleteEvent d e.eventId) db).events.filter
      (fun e => e.userId == u) = [] := by
  refine List.filter_eq_nil_iff.mpr ?_
  intro e he
  obtain ⟨hmem, hall⟩ := foldl_deleteEvent_mem _ db e he
  intro hbeq
  have hu : e.userId = u := by simpa using hbeq
  have hin : e ∈ getEventsForUser db u := by
    simp [getEventsForUser, sortAscBy, List.mem_insertionSort, List.mem_filter, hmem, hu]
  exact hall e hin rfl

/-- The create loop of the events section appends the remote rows; modulo
the fresh ids, the user's rows gain exactly the remote events the user
owns. -/
theorem createEvents_fold_content (u : Nat) :
    ∀ (l : List RemoteEvent) (db : DBShape),
    ((l.foldl (fun d ev => (createEvent d (remoteEventInput ev)).2) db).events.filter
        (fun e => e.userId == u)).map eventContent
      = (db.events.filter (fun e => e.userId == u)).map eventContent
        ++ (l.filter (fun ev => ev.userId == u)).map remoteEventContent := by
  intro l
  induction l with
  | nil => intro db; simp
  | cons ev l ih =>
    intro db
    rw [List.foldl_cons, ih]
    by_cases hu : ev.userId = u
    · simp [createEvent, remoteEventInput, nextId, List.filter_append, List.map_append,
        List.filter_cons, hu, eventContent, remoteEventContent, orElse_none]
    · simp [createEvent, remoteEventInput, nextId, List.filter_append, List.map_append,
        List.filter_cons, hu]

/-- After the events section, the user's rows are (modulo ids) exactly the
remote events the user owns, whatever the store held before. -/
theorem syncEventsStep_content (db : DBShape) (u : Nat) (l : List RemoteEvent) :
    ((syncEventsStep db u l).events.filter (fun e => e.userId == u)).map eventContent
      = (l.filter (fun ev => ev.userId == u)).map remoteEventContent := by
  simp only [syncEventsStep]
  rw [createEvents_fold_content, syncEventsStep_deletes_user_events]
  simp

/-- Two contradictory user filters compose to the empty list. -/
theorem filter_user_of_cleared (u : Nat) (ns : List NotificationRow) :
    (ns.filter (fun n => n.userId != u)).filter (fun n => n.userId == u) = [] := by
  refine List.filter_eq_nil_iff.mpr ?_
  intro n hn
  have hne := (List.mem_filter.mp hn).2
  simp only [bne_iff_ne, ne_eq] at hne
  simp [hne]

/-- The add loop of the notifications section appends the remote rows;
when each remote notification carries `createdAt`, the user's rows gain
exactly the remote set's content. -/
theorem addNotifs_fold_content (u : Nat) (now : Int) :
    ∀ (l : List RemoteNotif) (db : DBShape), (∀ n ∈ l, n.createdAt.isSome) →
    ((l.foldl (fun (d : DBShape) (n : RemoteNotif) => (addNotification d
        { userId := n.userId, notifMsg := n.notifMsg, notifType := n.notifType,
          timestamp := n.createdAt } now).2) db).notifications.filter
        (fun n => n.userId == u)).map notifContent
      = (db.notifications.filter (fun n => n.userId == u)).map notifContent
        ++ (l.filter (fun n => n.userId == u)).map remoteNotifContent := by
  intro l
  induction l with
  | nil => intro db _; simp
  | cons n l ih =>
    intro db h
    rw [List.foldl_cons, ih _ (fun m hm => h m (List.mem_cons_of_mem _ hm))]
    obtain ⟨c, hc⟩ := Option.isSome_iff_exists.mp (h n (List.mem_cons_self _ _))
    by_cases hu : n.userId = u
    · simp [addNotification, nextId, List.filter_append, List.map_append, List.filter_cons,
        hu, notifContent, remoteNotifContent, hc]
    · simp [addNotification, nextId, List.filter_append, List.map_append, List.filter_cons, hu]

/-- After the notifications section, the user's notifications are (modulo
ids) exactly the remote set's content, whatever the store held before. -/
theorem syncNotifsStep_content (db : DBShape) (u : Nat) (l : List RemoteNotif) (now : Int)
    (h : ∀ n ∈ l, n.createdAt.isSome) :
    ((syncNotifsStep db u l now).notifications.filter (fun n => n.userId == u)).map notifContent
      = (l.filter (fun n => n.userId == u)).map remoteNotifContent := by
  simp only [syncNotifsStep]
  rw [addNotifs_fold_content u now l (clearNotificationsForUser db u) h]
  simp only [clearNotificationsForUser]
  rw [filter_user_of_cleared]
  simp

/-! ### Claim theorems -/

/-- C1: along any trace of creates, deletes and restarts starting from the
fresh fallback document — each step reloading and renormalizing the
document, with missing counters backfilled from the max id-like field + 1
— the ids returned for each table are pairwise strictly increasing: never
repeated, not even after deletions or across restarts. -/
theorem create_ids_strictly_increasing :
    ∀ (ops : List Op) (t : Table),
      (idsFor (runTrace initialDb ops).2 t).Pairwise (fun a b => a < b) :=
  fun ops t => (runTrace_ids_aux ops initialDb t).2

/-- C6: every time-oriented list query of the fallback store returns its rows
sorted: `getEventsForUser`, `getFreeTimeForUser` ascending by `startTime`,
`getRsvpsForEvent` ascending by `createdAt`, and `getRsvpsForUser`,
`getNotificationsForUser` descending by `createdAt` (most recent first). -/
theorem list_queries_sorted :
    ∀ (db : DBShape) (userId eventId : Nat),
    List.Sorted (keyLe (fun e => e.startTime)) (getEventsForUser db userId) ∧
    List.Sorted (keyLe (fun e => e.startTime)) (getFreeTimeForUser db userId) ∧
    List.Sorted (keyLe (fun r => r.createdAt)) (getRsvpsForEvent db eventId) ∧
    List.Sorted (keyGe (fun r => r.createdAt)) (getRsvpsForUser db userId) ∧
    List.Sorted (keyGe (fun n => n.createdAt)) (getNotificationsForUser db userId) := by
  intro db userId eventId
  exact ⟨List.sorted_insertionSort _ _, List.sorted_insertionSort _ _,
    List.sorted_insertionSort _ _, List.sorted_insertionSort _ _,
    List.sorted_insertionSort _ _⟩

/-- C7: an accepted friendship row makes each endpoint appear in the other
endpoint's `getFriendsForUser` result, no matter which side sent the
request. -/
theorem accepted_friendship_symmetric (db : DBShape) (r : FriendRow)
    (hmem : r ∈ db.friends) (hacc : r.status = "accepted") :
    r.friendId ∈ getFriendsForUser db r.userId ∧ r.userId ∈ getFriendsForUser db r.friendId := by
  constructor
  · simp only [getFriendsForUser, List.mem_map, List.mem_filter]
    exact ⟨r, ⟨hmem, by simp [hacc]⟩, by simp⟩
  · simp only [getFriendsForUser, List.mem_map, List.mem_filter]
    refine ⟨r, ⟨hmem, by simp [hacc]⟩, ?_⟩
    by_cases h : r.userId = r.friendId
    · simp [h]
    · simp [h]

/-- Witness for C7: in `fallbackSampleDb`, the accepted row (1, 2) is seen
from both sides. -/
theorem accepted_friendship_symmetric_witness :
    (2 : Nat) ∈ getFriendsForUser fallbackSampleDb 1 ∧
    (1 : Nat) ∈ getFriendsForUser fallbackSampleDb 2 :=
  accepted_friendship_symmetric fallbackSampleDb ⟨1, 1, 2, "accepted"⟩ (by decide) rfl

/-- C8: `updateUser`, `updateRsvp` and `respondFriendRequest` on an id no
row carries return the store unchanged (silent no-op, no error). -/
theorem update_nonexistent_id_noop :
    (∀ (db : DBShape) (id : Nat) (fields : UserUpdate),
      (∀ u ∈ db.users, u.userId ≠ id) → updateUser db id fields = db) ∧
    (∀ (db : DBShape) (rid : Nat) (fields : RsvpUpdate) (now : Int),
      (∀ r ∈ db.rsvps, r.rsvpId ≠ rid) → updateRsvp db rid fields now = db) ∧
    (∀ (db : DBShape) (requestId : Nat) (accept : Bool),
      (∀ r ∈ db.friends, r.friendRowId ≠ requestId) →
        respondFriendRequest db requestId accept = db) := by
  refine ⟨?_, ?_, ?_⟩
  · intro db id fields h
    have hn : db.users.find? (fun u => u.userId == id) = none :=
      List.find?_eq_none.mpr (fun u hu => by simpa using h u hu)
    simp [updateUser, hn]
  · intro db rid fields now h
    have hn : db.rsvps.find? (fun r => r.rsvpId == rid) = none :=
      List.find?_eq_none.mpr (fun r hr => by simpa using h r hr)
    simp [updateRsvp, hn]
  · intro db requestId accept h
    have hn : db.friends.find? (fun r => r.friendRowId == requestId) = none :=
      List.find?_eq_none.mpr (fun r hr => by simpa using h r hr)
    simp [respondFriendRequest, hn]

/-- Witness for C8: nothing in `fallbackSampleDb` carries id 99, and each of
the three updates leaves it untouched. -/
theorem update_nonexistent_id_noop_witness :
    updateUser fallbackSampleDb 99 { username := some "x", email := none } = fallbackSampleDb ∧
    updateRsvp fallbackSampleDb 99 { status := some "accepted", updatedAt := none } 0
      = fallbackSampleDb ∧
    respondFriendRequest fallbackSampleDb 99 true = fallbackSampleDb :=
  ⟨update_nonexistent_id_noop.1 fallbackSampleDb 99 _ (by decide),
   update_nonexistent_id_noop.2.1 fallbackSampleDb 99 _ 0 (by decide),
   update_nonexistent_id_noop.2.2 fallbackSampleDb 99 true (by decide)⟩

/-- C9 counterexample: with `__FORCE_SEED__ === true` the guard does not
reject even outside development mode, so not every non-dev call throws. -/
theorem seed_guard_force_seed_bypass : seedDummyDataRejects false true = false := rfl

/-- C9 (amended): the `seedDummyData` guard throws before any write exactly
when the process is outside development mode and the `__FORCE_SEED__`
override is not set; it is the only rejecting path of the core. -/
theorem seed_guard_rejects_iff :
    ∀ (dev forceSeed : Bool),
      seedDummyDataRejects dev forceSeed = true ↔ dev = false ∧ forceSeed = false := by
  decide

/-- C4: the native engine's `deleteUser` issues only
`DELETE FROM users WHERE userId = ?`, so the accepted friendship row
referencing the deleted user 1 survives and `getFriendsForUser(2)` still
reaches it; the fallback engine's bulk-filter cascade removes it. -/
theorem native_delete_user_no_cascade :
    getFriendsForUserNative (deleteUserNative nativeSampleDb 1) 2 = [1] ∧
    (deleteUserNative nativeSampleDb 1).users = [⟨2, "bob", "bob@x"⟩] ∧
    getFriendsForUser (deleteUser fallbackSampleDb 1) 2 = [] := by
  decide

/-- C5: a sync pass never removes a local friendship or RSVP row, whatever
the remote returns: every local row survives with its identity fields
intact, the friends and RSVP sections only inserting rows or updating the
status of existing ones. -/
theorem sync_never_removes_friend_or_rsvp :
    ∀ (db : DBShape) (userId : Nat) (remote : RemoteData) (now : Int),
    (∀ r ∈ db.friends, ∃ r' ∈ (syncFromBackend db userId remote now).friends,
        r'.friendRowId = r.friendRowId ∧ r'.userId = r.userId ∧ r'.friendId = r.friendId) ∧
    (∀ s ∈ db.rsvps, ∃ s' ∈ (syncFromBackend db userId remote now).rsvps,
        s'.rsvpId = s.rsvpId ∧ s'.eventId = s.eventId ∧ s'.eventOwnerId = s.eventOwnerId ∧
        s'.inviteRecipientId = s.inviteRecipientId ∧ s'.createdAt = s.createdAt) := by
  intro db userId remote now
  have hsync : syncFromBackend db userId remote now
      = syncPrefsStep (syncNotifsStep (syncRsvpsStep (syncFriendsStep (syncEventsStep
          (syncUserStep db remote.user) userId remote.events) userId remote.friends)
          userId remote.rsvps now) userId remote.notifications now)
          userId remote.preferences now := rfl
  constructor
  · rw [hsync, syncPrefsStep_friends, syncNotifsStep_friends, syncRsvpsStep_friends]
    have hbase : (syncEventsStep (syncUserStep db remote.user) userId remote.events).friends
        = db.friends := by
      rw [syncEventsStep_friends, syncUserStep_friends]
    have h := syncFriendsStep_kept userId remote.friends
      (syncEventsStep (syncUserStep db remote.user) userId remote.events)
    rw [hbase] at h
    exact h
  · rw [hsync, syncPrefsStep_rsvps, syncNotifsStep_rsvps]
    have hbase : (syncFriendsStep (syncEventsStep (syncUserStep db remote.user) userId
        remote.events) userId remote.friends).rsvps = db.rsvps := by
      rw [syncFriendsStep_rsvps, syncEventsStep_rsvps, syncUserStep_rsvps]
    have h := syncRsvpsStep_kept userId now remote.rsvps
      (syncFriendsStep (syncEventsStep (syncUserStep db remote.user) userId remote.events)
        userId remote.friends)
    rw [hbase] at h
    exact h

/-- C3: the friends section's existence probe compares the `friendId`
property of bare numeric ids (always `undefined`) with the remote numeric
`friendId`, so it never matches and every sync pass re-creates the same
friendship: two passes over one remote accepted friendship leave two
duplicate pending rows. -/
theorem sync_duplicates_friend_rows :
    ((syncFromBackend (syncFromBackend initialDb 1 remoteFriendSample 0) 1
        remoteFriendSample 0).friends).map (fun r => (r.userId, r.friendId, r.status))
      = [(1, 2, "pending"), (1, 2, "pending")] := by
  decide

/-- C2 counterexample: with one remote event for user 1 and an empty local
store, the event carries id 1 after the first pass but id 2 after the
second — a second pass does not leave the same ids. -/
theorem sync_pass_changes_event_ids :
    ((syncFromBackend initialDb 1 remoteEventSample 0).events).map (fun e => e.eventId)
      = [1] ∧
    ((syncFromBackend (syncFromBackend initialDb 1 remoteEventSample 0) 1
        remoteEventSample 0).events).map (fun e => e.eventId) = [2] := by
  decide

/-- Remote data exercising both destructive-replace resources: one event
owned by user 1 and one notification for user 1 carrying its timestamp. -/
def remoteIdemSample : RemoteData :=
  { user := none,
    events := [{ userId := 1, eventTitle := some "Standup", title := none,
                 description := some "daily", startTime := 50, endTime := some 60,
                 date := some 50, isEvent := some 1, recurring := some 0 }],
    friends := [], rsvps := [],
    notifications := [{ userId := 1, notifMsg := "hello", notifType := some "welcome",
                        createdAt := some 5 }],
    preferences := none }

/-- C2 (amended): two consecutive passes with unchanged remote data leave
the user's local event rows and notification rows with the same content in
the same order — every field except the auto-increment ids, which are
freshly assigned by each pass and therefore differ — provided each remote
notification carries its `createdAt` (as the remote interface specifies). -/
theorem sync_idempotent_up_to_ids (db : DBShape) (u : Nat) (remote : RemoteData)
    (now1 now2 : Int) (h : ∀ n ∈ remote.notifications, n.createdAt.isSome) :
    ((syncFromBackend (syncFromBackend db u remote now1) u remote now2).events.filter
        (fun e => e.userId == u)).map eventContent
      = ((syncFromBackend db u remote now1).events.filter (fun e => e.userId == u)).map
          eventContent ∧
    ((syncFromBackend (syncFromBackend db u remote now1) u remote now2).notifications.filter
        (fun n => n.userId == u)).map notifContent
      = ((syncFromBackend db u remote now1).notifications.filter (fun n => n.userId == u)).map
          notifContent := by
  have hsync : ∀ (d : DBShape) (now : Int), syncFromBackend d u remote now
      = syncPrefsStep (syncNotifsStep (syncRsvpsStep (syncFriendsStep (syncEventsStep
          (syncUserStep d remote.user) u remote.events) u remote.friends) u remote.rsvps now)
          u remote.notifications now) u remote.preferences now :=
    fun d now => rfl
  have hev : ∀ (d : DBShape) (now : Int),
      ((syncFromBackend d u remote now).events.filter (fun e => e.userId == u)).map eventContent
        = (remote.events.filter (fun ev => ev.userId == u)).map remoteEventContent := by
    intro d now
    rw [hsync, syncPrefsStep_events, syncNotifsStep_events, syncRsvpsStep_events,
      syncFriendsStep_events, syncEventsStep_content]
  have hnot : ∀ (d : DBShape) (now : Int),
      ((syncFromBackend d u remote now).notifications.filter (fun n => n.userId == u)).map
          notifContent
        = (remote.notifications.filter (fun n => n.userId == u)).map remoteNotifContent := by
    intro d now
    rw [hsync, syncPrefsStep_notifications, syncNotifsStep_content _ _ _ _ h]
  exact ⟨(hev _ now2).trans (hev _ now1).symm, (hnot _ now2).trans (hnot _ now1).symm⟩

/-- Witness for C2: concrete remote data, two passes at different clock
values, same user-1 event and notification content after both. -/
theorem sync_idempotent_up_to_ids_witness :
    ((syncFromBackend (syncFromBackend initialDb 1 remoteIdemSample 0) 1
        remoteIdemSample 7).events.filter (fun e => e.userId == 1)).map eventContent
      = ((syncFromBackend initialDb 1 remoteIdemSample 0).events.filter
          (fun e => e.userId == 1)).map eventContent ∧
    ((syncFromBackend (syncFromBackend initialDb 1 remoteIdemSample 0) 1
        remoteIdemSample 7).notifications.filter (fun n => n.userId == 1)).map notifContent
      = ((syncFromBackend initialDb 1 remoteIdemSample 0).notifications.filter
          (fun n => n.userId == 1)).map notifContent :=
  sync_idempotent_up_to_ids initialDb 1 remoteIdemSample 0 7 (by decide)

/-- C10: `getEventsForUser` returns exactly the events-table rows with the
queried `userId` and applies no `isEvent` filter; in particular the row
`addFreeTime` pushes (with `isEvent = 0`) is returned for its user. -/
theorem getEventsForUser_includes_free_time :
    (∀ (db : DBShape) (userId : Nat) (e : EventRow),
      e ∈ getEventsForUser db userId ↔ e ∈ db.events ∧ e.userId = userId) ∧
    (∀ (db : DBShape) (slot : FreeTimeInput),
      freeTimeRow (addFreeTime db slot).1 slot ∈
        getEventsForUser (addFreeTime db slot).2 slot.userId) := by
  constructor
  · intro db userId e
    simp [getEventsForUser, sortAscBy, List.mem_insertionSort, List.mem_filter]
  · intro db slot
    simp [getEventsForUser, sortAscBy, List.mem_insertionSort, List.mem_filter, addFreeTime,
      nextId, freeTimeRow]

end FriendSync
